import Mathlib

/-!
# Verification of the personal-finance RAG pipeline core

Shallow embedding of the tiered retrieval-and-fallback orchestrator
(`src/core/hybrid_rag_pipeline.py`, class `HybridRAGPipeline`) and the curated
knowledge-base store (`src/utils/qa_content_manager.py`, class
`QAContentManager`), together with theorems settling the specification claims
about them.

Modelling conventions:
* Python floats carrying retrieval scores are modelled as rationals (`ℚ`);
  the only operation performed on them is comparison against the literal
  `0.7`, which is exact in both representations.
* Python dicts with string keys are modelled as insertion-ordered association
  lists (`List (String × α)`): assignment to an existing key updates it in
  place, assignment to a fresh key appends at the end, exactly as CPython
  dicts behave.
* A Python dict representing a QA pair may lack keys, so each field of
  `QAPair` is an `Option String`; `none` means the key is absent.  Reading an
  absent key (`qa_pair["question"]`) raises `KeyError`; functions that can
  raise return `Option _`, with `none` for an uncaught exception.
* `datetime.now()` values are passed in as explicit string parameters.
* The vector stores and the LLM are external collaborators: a store is
  `Option (String → Nat → SearchOutcome)` (absent store / response to a
  `(query, k)` call, where `SearchOutcome.err` is a raised exception), and the
  LLM is a function from the composed prompt to the generated text.
-/

/-! ## Python string primitives

The Python string methods the code relies on (`lower`, `strip`, `split`,
`startswith`, `replace`), modelled as structural recursions over the
character list so that every concrete evaluation reduces in the kernel.
`lower` uses per-character case-folding, which agrees with Python on the
ASCII data handled here. -/

/-- `str.lower()`. -/
def pyLower (s : String) : String := ⟨s.data.map Char.toLower⟩

/-- Strip characters of the whitespace class from both ends of a list. -/
def stripChars (l : List Char) : List Char :=
  ((l.dropWhile Char.isWhitespace).reverse.dropWhile Char.isWhitespace).reverse

/-- `str.strip()` with no argument: remove leading and trailing whitespace. -/
def pyStrip (s : String) : String := ⟨stripChars s.data⟩

/-- Does `pat` occur at the head of `l`? -/
def startsWithChars : List Char → List Char → Bool
  | [], _ => true
  | _ :: _, [] => false
  | p :: ps, c :: cs => p == c && startsWithChars ps cs

/-- `s.startswith(pat)`. -/
def pyStartsWith (s pat : String) : Bool := startsWithChars pat.data s.data

/-- Remove `pat` from the head of `l`, when it occurs there. -/
def dropPfxChars : List Char → List Char → Option (List Char)
  | [], l => some l
  | _ :: _, [] => none
  | p :: ps, c :: cs => if p == c then dropPfxChars ps cs else none

/-- Replace every non-overlapping occurrence of `pat` (non-empty here),
scanning left to right; `fuel` bounds the recursion and is instantiated with
the input length, which suffices for non-empty patterns. -/
def replChars (pat rep : List Char) : Nat → List Char → List Char
  | _, [] => []
  | 0, l => l
  | fuel + 1, c :: rest =>
    match dropPfxChars pat (c :: rest) with
    | some remainder => rep ++ replChars pat rep fuel remainder
    | none => c :: replChars pat rep fuel rest

/-- `s.replace(pat, rep)` for a non-empty `pat`. -/
def pyReplace (s pat rep : String) : String :=
  ⟨replChars pat.data rep.data s.data.length s.data⟩

/-- Split at every occurrence of the separator character. -/
def splitOnChar (sep : Char) : List Char → List (List Char)
  | [] => [[]]
  | c :: rest =>
    match splitOnChar sep rest with
    | [] => [[c]]
    | h :: t => if c == sep then [] :: h :: t else (c :: h) :: t

/-- `s.split('\n')`. -/
def pySplitLines (s : String) : List String :=
  (splitOnChar '\n' s.data).map (fun l => ⟨l⟩)

/-! ## Tier router: data model (`hybrid_rag_pipeline.py`) -/

/-- A `(Document, score)` pair as returned by
`Chroma.similarity_search_with_score`: page content plus the metadata keys the
pipeline reads (`category`, `source`, `title`, `url`); `none` = key absent. -/
structure RetrievedDoc where
  page_content : String
  md_category : Option String
  md_source : Option String
  md_title : Option String
  md_url : Option String
deriving DecidableEq

/-- Outcome of one `similarity_search_with_score` call: the returned list of
`(document, score)` pairs, or a raised exception (`err`). -/
inductive SearchOutcome where
  | ok (docs : List (RetrievedDoc × ℚ))
  | err
deriving DecidableEq

/-- A vector store as seen by the pipeline: `none` when the store directory is
absent (`self.qa_vector_store = None`), otherwise the collaborator's response
to each `(query, k)` search call. -/
def VectorStore : Type := Option (String → Nat → SearchOutcome)

/-- The result dict built by `search_qa_data` for each retrieved document
(the constant `'type': 'qa_pair'` key is omitted). -/
structure QAResult where
  question : String
  answer : String
  context : String
  category : String
  source : String
  similarity_score : ℚ
  content : String
deriving DecidableEq

/-- The result dict built by `search_documents` for each retrieved document
(the constant `'type'` key and the redundant full `metadata` copy are
omitted). -/
structure DocResult where
  title : String
  url : String
  content : String
  similarity_score : ℚ
deriving DecidableEq

/-- The line-splitting loop of `search_qa_data`: fold over
`content.split('\n')`, remembering the last line labelled `Context:`,
`Question:` and `Answer:` (label stripped and trimmed); accumulator is
`(qa_context, qa_question, qa_answer)`. -/
def parseQAContent (content : String) : String × String × String :=
  (pySplitLines content).foldl
    (fun acc line =>
      if pyStartsWith line "Context:" then
        (pyStrip (pyReplace line "Context:" ""), acc.2.1, acc.2.2)
      else if pyStartsWith line "Question:" then
        (acc.1, pyStrip (pyReplace line "Question:" ""), acc.2.2)
      else if pyStartsWith line "Answer:" then
        (acc.1, acc.2.1, pyStrip (pyReplace line "Answer:" ""))
      else acc)
    ("", "", "")

/-- `HybridRAGPipeline.search_qa_data`: empty list when the store is absent or
the search raises; otherwise each `(doc, score)` is parsed into a QA result
(metadata defaults `'Unknown'`). -/
def search_qa_data (store : VectorStore) (question : String) (k : Nat) :
    List QAResult :=
  match store with
  | none => []
  | some search =>
    match search question k with
    | .err => []
    | .ok docs =>
      docs.map (fun dr =>
        let parsed := parseQAContent dr.1.page_content
        { question := parsed.2.1
          answer := parsed.2.2
          context := parsed.1
          category := dr.1.md_category.getD "Unknown"
          source := dr.1.md_source.getD "Unknown"
          similarity_score := dr.2
          content := dr.1.page_content })

/-- `HybridRAGPipeline.search_documents`: empty list when the store is absent
or the search raises; otherwise each `(doc, score)` becomes a document-chunk
result (`title` defaults `'Unknown'`, `url` defaults `''`). -/
def search_documents (store : VectorStore) (question : String) (k : Nat) :
    List DocResult :=
  match store with
  | none => []
  | some search =>
    match search question k with
    | .err => []
    | .ok docs =>
      docs.map (fun dr =>
        { title := dr.1.md_title.getD "Unknown"
          url := dr.1.md_url.getD ""
          content := dr.1.page_content
          similarity_score := dr.2 })

/-- The `method` field of the response envelope. -/
inductive Method where
  | qa_data
  | document_search
  | base_llm
deriving DecidableEq

/-- The `confidence` field of the response envelope. -/
inductive Confidence where
  | high
  | medium
  | low
deriving DecidableEq

/-- One element of the envelope's `sources_used` list: either the QA-pair
source dict built on the curated path or the document-chunk source dict built
on the grounded path (the `'type'` tag is the constructor). -/
inductive SourceRef where
  | qaPair (question context category source : String) (score : ℚ)
  | docChunk (title url : String) (score : ℚ)
deriving DecidableEq

/-- The result dict returned by `ask_question` (the wall-clock `timestamp`
field is omitted from the embedding). -/
structure Envelope where
  question : String
  sources_used : List SourceRef
  answer : String
  confidence : Confidence
  method : Method
deriving DecidableEq

/-- Observable collaborator activity during one `ask_question` call: whether
each vector store was searched and the list of prompts sent to the LLM. -/
structure CallLog where
  qa_searched : Bool
  doc_searched : Bool
  gen_prompts : List String
deriving DecidableEq

/-- The collaborators `ask_question` consults: the two vector stores and the
generation LLM (modelled as a function from prompt to generated text). -/
structure PipelineEnv where
  qa_search : VectorStore
  doc_search : VectorStore
  llm : String → String

/-- The ungrounded prompt composed by `get_base_llm_answer`. -/
def base_prompt (question : String) : String :=
  "<s>[INST] You are a helpful financial advisor assistant. Answer the following question based on your general knowledge of financial planning and investing principles. If you\x27re not confident about the answer, say so.\n\nQuestion: " ++
  question ++
  "\n\nProvide a helpful, accurate response based on general financial knowledge. [/INST]"

/-- `HybridRAGPipeline.get_base_llm_answer`. -/
def get_base_llm_answer (llm : String → String) (question : String) : String :=
  llm (base_prompt question)

/-- The grounding prompt composed on the document path of `ask_question`. -/
def doc_prompt (context question : String) : String :=
  "<s>[INST] You are a helpful financial advisor assistant. Use the following context to answer the user\x27s question. If the context doesn\x27t contain enough information, say so.\n\nContext:\n" ++
  context ++
  "\n\nQuestion: " ++ question ++
  "\n\nProvide a clear, accurate answer based on the context provided. [/INST]"

/-- The grounding block: each document prefixed by `Source: {title}`, joined
with blank lines, in retrieval order. -/
def doc_context (docs : List DocResult) : String :=
  String.intercalate "\n\n"
    (docs.map (fun r => "Source: " ++ r.title ++ "\n" ++ r.content))

/-- The source dict recorded for one grounding document. -/
def mkDocSource (d : DocResult) : SourceRef :=
  .docChunk d.title d.url d.similarity_score

/-- The QA results available to tier 1: the `k = 2` search when the QA store
is loaded and hybrid mode is on, nothing otherwise. -/
def tier1_results (env : PipelineEnv) (question : String)
    (use_hybrid : Bool) : List QAResult :=
  if env.qa_search.isSome && use_hybrid then
    search_qa_data env.qa_search question 2
  else []

/-- The document results available to tier 2: the `k = 3` search when the
document store is loaded and hybrid mode is on, nothing otherwise. -/
def tier2_results (env : PipelineEnv) (question : String)
    (use_hybrid : Bool) : List DocResult :=
  if env.doc_search.isSome && use_hybrid then
    search_documents env.doc_search question 3
  else []

/-- Tiers 2 and 3 of `ask_question` (lines 251-302): search the document
store if present and hybrid mode is on; if that yields results, generate a
grounded answer; otherwise fall back to the ungrounded base-LLM answer. -/
def doc_and_fallback_tiers (env : PipelineEnv) (question : String)
    (use_hybrid : Bool) (qaTried : Bool) : Envelope × CallLog :=
  let docTried := env.doc_search.isSome && use_hybrid
  let doc_results := tier2_results env question use_hybrid
  match doc_results with
  | [] =>
    ({ question := question
       sources_used := []
       answer := get_base_llm_answer env.llm question
       confidence := .low
       method := .base_llm },
     { qa_searched := qaTried, doc_searched := docTried
       gen_prompts := [base_prompt question] })
  | d :: ds =>
    let prompt := doc_prompt (doc_context (d :: ds)) question
    ({ question := question
       sources_used := (d :: ds).map mkDocSource
       answer := env.llm prompt
       confidence := .medium
       method := .document_search },
     { qa_searched := qaTried, doc_searched := docTried
       gen_prompts := [prompt] })

/-- `HybridRAGPipeline.ask_question` (lines 213-302).  Tier 1: if the QA
vector store is loaded and `use_hybrid` is set, search it with `k = 2`; if
the result list is non-empty and the first result's `similarity_score` is
strictly greater than `0.7`, answer from the matched QA pair with high
confidence and no generation call.  Otherwise continue with the document and
fallback tiers. -/
def ask_question (env : PipelineEnv) (question : String) (use_hybrid : Bool) :
    Envelope × CallLog :=
  let qaTried := env.qa_search.isSome && use_hybrid
  let qa_results := tier1_results env question use_hybrid
  match qa_results with
  | best :: _ =>
    if best.similarity_score > 0.7 then
      ({ question := question
         sources_used := [.qaPair best.question best.context best.category
           best.source best.similarity_score]
         answer := best.answer
         confidence := .high
         method := .qa_data },
       { qa_searched := qaTried, doc_searched := false, gen_prompts := [] })
    else doc_and_fallback_tiers env question use_hybrid qaTried
  | [] => doc_and_fallback_tiers env question use_hybrid qaTried

/-! ## Knowledge store: data model (`qa_content_manager.py`)

CPython dicts are insertion-ordered; the following helpers model string-keyed
dicts as association lists with that discipline. -/

/-- Dict lookup: first (and, given dict discipline, only) binding of the key. -/
def dictGet {α : Type} : List (String × α) → String → Option α
  | [], _ => none
  | (k, v) :: rest, key => if k = key then some v else dictGet rest key

/-- Dict assignment: update an existing key in place, append a fresh key. -/
def dictSet {α : Type} : List (String × α) → String → α → List (String × α)
  | [], key, v => [(key, v)]
  | (k, w) :: rest, key, v =>
    if k = key then (key, v) :: rest else (k, w) :: dictSet rest key v

/-- One entry of the `qa_pairs` list: a Python dict whose keys may be absent
(`none` = key not present).  `added_date` / `updated_date` are set by the
manager from the wall clock. -/
structure QAPair where
  question : Option String
  answer : Option String
  context : Option String
  source : Option String
  doc_id : Option String
  category : Option String
  confidence : Option String
  added_date : Option String
  updated_date : Option String
deriving DecidableEq

/-- The `metadata` object of the knowledge file, restricted to the fields the
manager reads or writes (`category_counts` is never touched by it). -/
structure QAMetadata where
  total_qa_pairs : Int
  categories : List String
  sources : List String
deriving DecidableEq

/-- The in-memory knowledge store `self.qa_data`: the authoritative
`qa_pairs` list, the per-category buckets, and the metadata object.

The buckets are modelled as independent copies of the entries (exactly the
state produced by `load_qa_data`, where `json.load` shares no objects between
`qa_pairs` and `categories`); the manager's explicit bucket updates are
modelled, the incidental aliasing a fresh `add_qa_pair` creates is not. -/
structure QAData where
  qa_pairs : List QAPair
  categories : List (String × List QAPair)
  metadata : QAMetadata
deriving DecidableEq

/-- The normalization applied to questions throughout the manager:
`question.lower().strip()`. -/
def normQ (s : String) : String := pyStrip (pyLower s)

/-- Number of entries of `ps` whose (present) question normalizes like `q`. -/
def dupCount (ps : List QAPair) (q : String) : Nat :=
  ps.countP (fun p => p.question.map normQ == some (normQ q))

/-- Python truthiness of an optional-string argument: `None` and `""` are
falsy. -/
def truthy (o : Option String) : Bool := o.getD "" != ""

/-- `QAContentManager.add_qa_pair` (lines 56-88): build the new pair dict,
append it to `qa_pairs`, bump `total_qa_pairs`, append it to its category
bucket (creating the bucket if absent), and record category and source in the
metadata if new.  There is no duplicate check: the function never fails. -/
def add_qa_pair (s : QAData) (question answer context category source
    confidence now : String) : QAData × QAPair :=
  let qa_pair : QAPair :=
    { question := some question, answer := some answer, context := some context
      source := some source, doc_id := some "manual", category := some category
      confidence := some confidence, added_date := some now
      updated_date := none }
  let cats0 :=
    if (dictGet s.categories category).isSome then s.categories
    else dictSet s.categories category []
  let cats :=
    dictSet cats0 category (((dictGet cats0 category).getD []) ++ [qa_pair])
  let md := s.metadata
  let md :=
    if md.categories.contains category then md
    else { md with categories := md.categories ++ [category] }
  let md :=
    if md.sources.contains source then md
    else { md with sources := md.sources ++ [source] }
  ({ qa_pairs := s.qa_pairs ++ [qa_pair]
     categories := cats
     metadata := { md with total_qa_pairs := s.metadata.total_qa_pairs + 1 } },
   qa_pair)

/-- The bucket comprehension `[qa for qa in bucket if qa["question"] !=
question]`: `none` when some bucket element lacks the `question` key
(`KeyError`). -/
def filterOutQuestion (q : String) : List QAPair → Option (List QAPair)
  | [] => some []
  | p :: rest =>
    match p.question with
    | none => none
    | some pq =>
      (filterOutQuestion q rest).map (fun r => if pq = q then r else p :: r)

/-- The lookup loop of `delete_qa_pair`: find the first entry whose
normalized question equals `qkey` and split it out of the list, returning
also its (already read) question text.  `none` = `KeyError` (an entry
scanned up to the match lacks `question`); `some none` = no match. -/
def deleteScan (qkey : String) :
    List QAPair → Option (Option (QAPair × String × List QAPair))
  | [] => some none
  | p :: rest =>
    match p.question with
    | none => none
    | some pq =>
      if normQ pq = qkey then some (some (p, pq, rest))
      else
        match deleteScan qkey rest with
        | none => none
        | some none => some none
        | some (some (found, fq, rest2)) => some (some (found, fq, p :: rest2))

/-- `QAContentManager.delete_qa_pair` (lines 133-156): locate the entry by
normalized question (`(s, false)` when absent), remove it from `qa_pairs`,
decrement `total_qa_pairs`, and rebuild its category bucket without entries
carrying the same exact question text.  The bucket's key is never removed,
even when the bucket becomes empty.  `none` models an uncaught `KeyError`
(entry without `question`/`category`, or missing bucket). -/
def delete_qa_pair (s : QAData) (question : String) :
    Option (QAData × Bool) :=
  match deleteScan (normQ question) s.qa_pairs with
  | none => none
  | some none => some (s, false)
  | some (some (p, pq, newPairs)) =>
    match p.category with
    | none => none
    | some cat =>
      match dictGet s.categories cat with
      | none => none
      | some bucket =>
        match filterOutQuestion pq bucket with
        | none => none
        | some bucket2 =>
          some
            ({ qa_pairs := newPairs
               categories := dictSet s.categories cat bucket2
               metadata :=
                 { s.metadata with
                   total_qa_pairs := s.metadata.total_qa_pairs - 1 } },
             true)

/-- The field-update block of `update_qa_pair`: each argument is applied only
when truthy, then `updated_date` is set. -/
def updateFields (p : QAPair) (na nc ncat nconf : Option String)
    (now : String) : QAPair :=
  let p := if truthy na then { p with answer := na } else p
  let p := if truthy nc then { p with context := nc } else p
  let p := if truthy ncat then { p with category := ncat } else p
  let p := if truthy nconf then { p with confidence := nconf } else p
  { p with updated_date := some now }

/-- The lookup loop of `update_qa_pair`: find the first entry whose
normalized question equals `qkey`, read its `answer` and `category`
(`KeyError`, i.e. `none`, when either is absent), apply the field updates
and return `(question text, old category, updated entry, updated qa_pairs)`.
`some none` = no match. -/
def updateScan (qkey : String) (na nc ncat nconf : Option String)
    (now : String) :
    List QAPair → Option (Option (String × String × QAPair × List QAPair))
  | [] => some none
  | p :: rest =>
    match p.question with
    | none => none
    | some pq =>
      if normQ pq = qkey then
        match p.answer, p.category with
        | some _, some oldcat =>
          let upd := updateFields p na nc ncat nconf now
          some (some (pq, oldcat, upd, upd :: rest))
        | _, _ => none
      else
        match updateScan qkey na nc ncat nconf now rest with
        | none => none
        | some none => some none
        | some (some (oldq, oldcat, upd, rest2)) =>
          some (some (oldq, oldcat, upd, p :: rest2))

/-- `QAContentManager.update_qa_pair` (lines 90-131): locate the entry by
normalized question (`(s, none)` when absent — the code prints and returns
`None`), update its fields in `qa_pairs`, and, when a truthy new category
differs from the old one, rebuild the old bucket without the entry's exact
question text and append the updated entry to the (possibly fresh) new
bucket.  The old bucket's key is kept even when the bucket becomes empty.
`none` models an uncaught `KeyError`. -/
def update_qa_pair (s : QAData) (question : String)
    (na nc ncat nconf : Option String) (now : String) :
    Option (QAData × Option QAPair) :=
  match updateScan (normQ question) na nc ncat nconf now s.qa_pairs with
  | none => none
  | some none => some (s, none)
  | some (some (oldq, oldcat, upd, newPairs)) =>
    let s1 : QAData := { s with qa_pairs := newPairs }
    match ncat with
    | some ncs =>
      if ncs != "" && ncs != oldcat then
        match dictGet s1.categories oldcat with
        | none => none
        | some bucket =>
          match filterOutQuestion oldq bucket with
          | none => none
          | some bucket2 =>
            let c1 := dictSet s1.categories oldcat bucket2
            let c2 :=
              if (dictGet c1 ncs).isSome then c1 else dictSet c1 ncs []
            let c3 := dictSet c2 ncs (((dictGet c2 ncs).getD []) ++ [upd])
            some ({ s1 with categories := c3 }, some upd)
      else some (s1, some upd)
    | none => some (s1, some upd)

/-- The truthy category override of `import_category`: `if category:
qa_pair["category"] = category`. -/
def applyOverride (ov : Option String) (p : QAPair) : QAPair :=
  if truthy ov then { p with category := ov } else p

/-- One iteration of the `import_category` loop (lines 261-281): apply the
override, append the pair to `qa_pairs`, bump `total_qa_pairs`, append it to
its category bucket (creating the bucket if absent), and record category and
source in the metadata if new.  `none` = `KeyError` reading `category` or
`source`.  No duplicate check of any kind is performed. -/
def importStep (ov : Option String) (s : QAData) (p0 : QAPair) :
    Option QAData :=
  let p := applyOverride ov p0
  let s1 : QAData :=
    { s with
      qa_pairs := s.qa_pairs ++ [p]
      metadata :=
        { s.metadata with total_qa_pairs := s.metadata.total_qa_pairs + 1 } }
  match p.category with
  | none => none
  | some cat =>
    let cats0 :=
      if (dictGet s1.categories cat).isSome then s1.categories
      else dictSet s1.categories cat []
    let cats := dictSet cats0 cat (((dictGet cats0 cat).getD []) ++ [p])
    let md := s1.metadata
    let md :=
      if md.categories.contains cat then md
      else { md with categories := md.categories ++ [cat] }
    match p.source with
    | none => none
    | some src =>
      let md :=
        if md.sources.contains src then md
        else { md with sources := md.sources ++ [src] }
      some { s1 with categories := cats, metadata := md }

/-- The `import_category` loop over the batch, threading the store and the
`imported_count` accumulator. -/
def importLoop (ov : Option String) :
    QAData → List QAPair → Nat → Option (QAData × Nat)
  | s, [], n => some (s, n)
  | s, p :: rest, n =>
    match importStep ov s p with
    | none => none
    | some s2 => importLoop ov s2 rest (n + 1)

/-- `QAContentManager.import_category` (lines 248-283), from the point where
the import file has been read: merge every entry of the batch into the store
with an optional category override, counting the appended entries.  `none`
models an uncaught `KeyError` (the partially mutated in-memory state at the
raise point is not tracked). -/
def import_category (s : QAData) (batch : List QAPair) (ov : Option String) :
    Option (QAData × Nat) :=
  importLoop ov s batch 0

/-- One `missing_fields` issue of the validation report. -/
structure MissingFieldIssue where
  qa_pair : QAPair
  missing_field : String
deriving DecidableEq

/-- The `issues` dict returned by `validate_qa_pairs`. -/
structure ValidationIssues where
  missing_fields : List MissingFieldIssue
  duplicate_questions : List QAPair
  empty_answers : List QAPair
  low_confidence : List QAPair
  orphaned_categories : List String
deriving DecidableEq

/-- Field access by name, as `field in qa_pair` / `qa_pair[field]` does for
the five required fields. -/
def getField (p : QAPair) : String → Option String
  | "question" => p.question
  | "answer" => p.answer
  | "context" => p.context
  | "category" => p.category
  | "source" => p.source
  | _ => none

/-- The list of required field names checked by `validate_qa_pairs`. -/
def requiredFields : List String :=
  ["question", "answer", "context", "category", "source"]

/-- `field not in qa_pair or not qa_pair[field]`: absent or falsy (empty). -/
def fieldMissing (p : QAPair) (f : String) : Bool :=
  match getField p f with
  | none => true
  | some v => v == ""

/-- The `missing_fields` issues recorded for one entry, in field order. -/
def missingFieldIssues (p : QAPair) : List MissingFieldIssue :=
  requiredFields.filterMap (fun f =>
    if fieldMissing p f then some ⟨p, f⟩ else none)

/-- The per-entry loop of `validate_qa_pairs` (lines 191-214), threading the
issue accumulator and the `seen_questions` set.  After the missing-field
checks, the code reads `qa_pair["question"]` unconditionally, so an entry
without a `question` key raises `KeyError` (`none`). -/
def validateLoop :
    List QAPair → ValidationIssues → List String →
    Option (ValidationIssues × List String)
  | [], acc, seen => some (acc, seen)
  | p :: rest, acc, seen =>
    let acc := { acc with
      missing_fields := acc.missing_fields ++ missingFieldIssues p }
    match p.question with
    | none => none
    | some q =>
      let key := normQ q
      let dup := seen.contains key
      let acc :=
        if dup then
          { acc with duplicate_questions := acc.duplicate_questions ++ [p] }
        else acc
      let seen := if dup then seen else key :: seen
      let acc :=
        if (pyStrip (p.answer.getD "") == "") then
          { acc with empty_answers := acc.empty_answers ++ [p] }
        else acc
      let acc :=
        if p.confidence == some "low" then
          { acc with low_confidence := acc.low_confidence ++ [p] }
        else acc
      validateLoop rest acc seen

/-- `QAContentManager.validate_qa_pairs` (lines 176-221): scan all entries
accumulating issues, then report every category whose bucket is empty as
orphaned.  Pure — the store is not touched; `none` models the `KeyError`
raised on an entry without a `question` key. -/
def validate_qa_pairs (s : QAData) : Option ValidationIssues :=
  match validateLoop s.qa_pairs ⟨[], [], [], [], []⟩ [] with
  | none => none
  | some (acc, _) =>
    some { acc with
      orphaned_categories :=
        (s.categories.filter (fun kv => kv.2 == [])).map Prod.fst }

/-! ## Persistence (`save_qa_data` / `load_qa_data`)

Two views of the same code, at the two levels the claims speak about.

File level (for the backup-ordering claim): file contents are opaque strings;
`json.dump(x, f)` after `open(path, "w")` first truncates the file, so a
failure mid-dump leaves a partial prefix of the serialized text. -/

/-- Where a `save_qa_data` run fails, if anywhere: during the backup dump or
during the primary dump, in each case leaving the named partial content in
the file being written (the preceding `open(..., "w")` has already
truncated it). -/
inductive PersistFailure where
  | noFail
  | failBackup (part : String)
  | failPrimary (part : String)
deriving DecidableEq

/-- The on-disk state seen by `save_qa_data`: the primary file's content
(`none` = absent) and the backup directory, keyed by file name. -/
structure Disk where
  primary : Option String
  backups : List (String × String)
deriving DecidableEq

/-- `QAContentManager.save_qa_data` (lines 34-54) at the file level, writing
serialized content `dat` with wall-clock `timestamp`. If the primary file
exists, its current content is first copied to
`qa_backups/qa_backup_{timestamp}.json`; a failure during that dump aborts
with the primary untouched.  The primary is then opened with mode `w`
(truncating it) and the new content dumped; a failure during that dump leaves
the partial content in place.  Returns the new disk state and whether the
call completed. -/
def save_qa_data (dat timestamp : String) (fail : PersistFailure)
    (d : Disk) : Disk × Bool :=
  let backup_file := "qa_backups/qa_backup_" ++ timestamp ++ ".json"
  match d.primary with
  | some current =>
    match fail with
    | .failBackup part =>
      (⟨d.primary, dictSet d.backups backup_file part⟩, false)
    | .failPrimary part =>
      (⟨some part, dictSet d.backups backup_file current⟩, false)
    | .noFail =>
      (⟨some dat, dictSet d.backups backup_file current⟩, true)
  | none =>
    match fail with
    | .failPrimary part => (⟨some part, d.backups⟩, false)
    | _ => (⟨some dat, d.backups⟩, true)

/-- The value carried by the primary file, `none` when the file is absent.
`json.dump`/`json.load` are faithful inverses on JSON-representable data, so
at this level a completed `save_qa_data` simply stores the in-memory value. -/
def FileValue : Type := Option QAData

/-- The effect of a completed `save_qa_data` call on the primary file,
at the value level: the in-memory store replaces whatever was there. -/
def persist_value (store : QAData) (_disk : FileValue) : FileValue :=
  some store

/-- `QAContentManager.load_qa_data` (lines 22-32) at the value level: when
the file is absent the code returns `{}` (modelled `none`); otherwise
`json.load` hands back exactly the persisted value — no field is recomputed,
in particular the persisted `categories` view is trusted verbatim. -/
def load_qa_data (disk : FileValue) : Option QAData := disk

/-- Modelled from the spec: the derived `categories` view §6 requires —
group `qa_pairs` by their `category` field, preserving entry order and
first-appearance bucket order.  (The spec's entries always carry a category;
an absent key is grouped under `""`.)  Used only to compare the spec's
required load-time self-healing with what `load_qa_data` does. -/
def spec_categoriesFromPairs (ps : List QAPair) :
    List (String × List QAPair) :=
  ps.foldl
    (fun acc p =>
      let c := p.category.getD ""
      dictSet acc c (((dictGet acc c).getD []) ++ [p]))
    []

/-- Modelled from the spec: `load` as §6 specifies it — parse the persisted
value, and regenerate the `categories` view from `qa_pairs` whenever the two
disagree (load-time self-healing).  Used only as the comparison point showing
the code performs no such regeneration. -/
def spec_load_qa_data (disk : FileValue) : Option QAData :=
  disk.map (fun d =>
    if d.categories = spec_categoriesFromPairs d.qa_pairs then d
    else { d with categories := spec_categoriesFromPairs d.qa_pairs })

/-! ## Concrete instances used by the claim theorems -/

/-- A pipeline environment whose curated store returns one near-exact match:
distance score `0.05`, far below the threshold `0.7`; no document store. -/
def envC1 : PipelineEnv :=
  { qa_search :=
      some (fun _ _ => .ok [(⟨"", some "cat", some "src", none, none⟩, 0.05)])
    doc_search := none
    llm := fun _ => "generated" }

/-- A collaborator whose every search raises. -/
def err_search : String → Nat → SearchOutcome := fun _ _ => .err

/-- A collaborator whose every search returns no results. -/
def empty_search : String → Nat → SearchOutcome := fun _ _ => .ok []

/-- A fixed generation collaborator. -/
def fixed_llm : String → String := fun _ => "generated"

/-- The store corresponding to an empty knowledge file. -/
def emptyStore : QAData := ⟨[], [], ⟨0, [], []⟩⟩

/-- One entry added to the empty store. -/
def c2_s1 : QAData :=
  (add_qa_pair emptyStore "What is X" "ans" "ctx" "cat" "Manual" "high" "t1").1

/-- The same question added again, differing only in case and whitespace. -/
def c2_s2 : QAData :=
  (add_qa_pair c2_s1 " what is X  " "ans2" "ctx" "cat" "Manual" "high" "t2").1

/-- The disk before a persist: the primary file holds `"OLD"`. -/
def c4_disk : Disk := ⟨some "OLD", []⟩

/-- A store with a single entry in category `cata`, built by one `add`. -/
def c5_s1 : QAData :=
  (add_qa_pair emptyStore "q1" "a1" "c1" "cata" "Manual" "high" "t0").1

/-- The store left by `delete_qa_pair c5_s1 "q1"`: the `cata` bucket is kept,
empty. -/
def c5_deleted : QAData := ⟨[], [("cata", [])], ⟨0, ["cata"], ["Manual"]⟩⟩

/-- The entry of `c5_s1` after its category is updated to `catb`. -/
def c5_upd : QAPair :=
  ⟨some "q1", some "a1", some "c1", some "Manual", some "manual",
   some "catb", some "high", some "t0", some "t2"⟩

/-- The store left by moving the entry of `c5_s1` from `cata` to `catb`:
the emptied `cata` bucket is kept. -/
def c5_moved : QAData :=
  ⟨[c5_upd], [("cata", []), ("catb", [c5_upd])], ⟨1, ["cata"], ["Manual"]⟩⟩

/-- An imported entry whose question duplicates the entry of `c2_s1` up to
case and whitespace. -/
def c6_bp : QAPair :=
  ⟨some " WHAT IS x ", some "a2", some "c2", some "S2", none, some "cat2",
   some "low", none, none⟩

/-- The entry held by `c2_s1`. -/
def c6_p1 : QAPair :=
  ⟨some "What is X", some "ans", some "ctx", some "Manual", some "manual",
   some "cat", some "high", some "t1", none⟩

/-- The store produced by importing `c6_bp` into `c2_s1`: the duplicate is
appended, not skipped. -/
def c6_result : QAData :=
  ⟨[c6_p1, c6_bp], [("cat", [c6_p1]), ("cat2", [c6_bp])],
   ⟨2, ["cat", "cat2"], ["Manual", "S2"]⟩⟩

/-- An entry whose dict lacks the `question` key. -/
def c7_bad : QAPair :=
  ⟨none, some "a", some "c", some "S", some "id", some "cat", some "high",
   none, none⟩

/-- A store containing an entry without a `question` key. -/
def c7_badStore : QAData := ⟨[c7_bad], [("cat", [c7_bad])], ⟨1, ["cat"], ["S"]⟩⟩

/-- A store whose persisted `categories` view disagrees with `qa_pairs`
(the derived view would have a `cat` bucket). -/
def c8_store : QAData := ⟨[c6_p1], [], ⟨1, ["cat"], ["Manual"]⟩⟩

/-! ## Dict and list lemmas -/

theorem dictGet_dictSet_self {α : Type} (d : List (String × α)) (k : String)
    (v : α) : dictGet (dictSet d k v) k = some v := by
  induction d with
  | nil => simp [dictGet, dictSet]
  | cons kv rest ih =>
    obtain ⟨k1, v1⟩ := kv
    by_cases h : k1 = k
    · simp [dictSet, dictGet, h]
    · simp [dictSet, dictGet, h, ih]

theorem dictSet_keys_of_isSome {α : Type} (d : List (String × α)) (k : String)
    (v : α) (h : (dictGet d k).isSome) :
    (dictSet d k v).map Prod.fst = d.map Prod.fst := by
  induction d with
  | nil => simp [dictGet] at h
  | cons kv rest ih =>
    obtain ⟨k1, v1⟩ := kv
    by_cases hk : k1 = k
    · simp [dictSet, hk]
    · simp only [dictGet, hk, if_false] at h
      simp [dictSet, hk, ih h]

theorem dictGet_isSome_dictSet {α : Type} (d : List (String × α))
    (k k2 : String) (v : α) (h : (dictGet d k).isSome) :
    (dictGet (dictSet d k2 v) k).isSome := by
  induction d with
  | nil => simp [dictGet] at h
  | cons kv rest ih =>
    obtain ⟨k1, v1⟩ := kv
    by_cases h1 : k1 = k2
    · subst h1
      by_cases h2 : k1 = k
      · subst h2
        simp [dictSet, dictGet]
      · simp only [dictGet, h2, if_false] at h
        simp [dictSet, dictGet, h2, h]
    · by_cases h2 : k1 = k
      · subst h2
        simp [dictSet, dictGet, h1]
      · simp only [dictGet, h2, if_false] at h
        simp [dictSet, dictGet, h1, h2, ih h]

/-! ## Operation-level lemmas -/

theorem importStep_qa_pairs (ov : Option String) (s : QAData) (p : QAPair)
    (s2 : QAData) (h : importStep ov s p = some s2) :
    s2.qa_pairs = s.qa_pairs ++ [applyOverride ov p] := by
  unfold importStep at h
  dsimp only at h
  split at h
  · simp at h
  · split at h
    · simp at h
    · cases h
      rfl

theorem importLoop_qa_pairs (ov : Option String) :
    ∀ (batch : List QAPair) (s : QAData) (n : Nat) (r : QAData × Nat),
      importLoop ov s batch n = some r →
      r.2 = n + batch.length ∧
      r.1.qa_pairs = s.qa_pairs ++ batch.map (applyOverride ov) := by
  intro batch
  induction batch with
  | nil =>
    intro s n r h
    simp only [importLoop] at h
    cases h
    simp
  | cons p rest ih =>
    intro s n r h
    simp only [importLoop] at h
    cases hstep : importStep ov s p with
    | none => rw [hstep] at h; simp at h
    | some s2 =>
      rw [hstep] at h
      obtain ⟨hc, hq⟩ := ih s2 (n + 1) r h
      refine ⟨by simp only [List.length_cons]; omega, ?_⟩
      rw [hq, importStep_qa_pairs ov s p s2 hstep]
      simp

theorem validateLoop_isSome :
    ∀ (ps : List QAPair) (acc : ValidationIssues) (seen : List String),
      (∀ p ∈ ps, p.question.isSome) → (validateLoop ps acc seen).isSome := by
  intro ps
  induction ps with
  | nil => intro acc seen _; simp [validateLoop]
  | cons p rest ih =>
    intro acc seen h
    have hp : p.question.isSome := h p (by simp)
    cases hq : p.question with
    | none => rw [hq] at hp; simp at hp
    | some q =>
      simp only [validateLoop, hq]
      exact ih _ _ (fun x hx => h x (by simp [hx]))

theorem delete_qa_pair_keys (s : QAData) (q : String) (r : QAData × Bool)
    (h : delete_qa_pair s q = some r) :
    r.1.categories.map Prod.fst = s.categories.map Prod.fst := by
  unfold delete_qa_pair at h
  split at h
  · simp at h
  · cases h; rfl
  · split at h
    · simp at h
    · split at h
      · simp at h
      · rename_i bucket hdict
        split at h
        · simp at h
        · cases h
          apply dictSet_keys_of_isSome
          rw [hdict]
          rfl

theorem update_qa_pair_keys (s : QAData) (q : String)
    (na nc ncat nconf : Option String) (now : String)
    (r : QAData × Option QAPair)
    (h : update_qa_pair s q na nc ncat nconf now = some r) (k : String)
    (hk : (dictGet s.categories k).isSome) :
    (dictGet r.1.categories k).isSome := by
  unfold update_qa_pair at h
  dsimp only at h
  split at h
  · simp at h
  · cases h; exact hk
  · split at h
    · split at h
      · split at h
        · simp at h
        · split at h
          · simp at h
          · cases h
            apply dictGet_isSome_dictSet
            split
            · exact dictGet_isSome_dictSet _ _ _ _ hk
            · exact dictGet_isSome_dictSet _ _ _ _
                (dictGet_isSome_dictSet _ _ _ _ hk)
      · cases h; exact hk
    · cases h; exact hk

/-! ## Claim theorems -/

/-- C1: the claim says a curated result with best (lowest-distance) score
below the threshold yields a curated envelope with one source and no
generation call.  Evaluating the code at such an input refutes this: with a
single curated result at distance `0.05 < 0.7` the router skips the curated
tier (its comparison is `score > 0.7`), answers via the base LLM with no
sources, and makes one generation call. -/
theorem c1_below_threshold_not_curated :
    (tier1_results envC1 "What is a Roth IRA?" true).map
      QAResult.similarity_score = [0.05] ∧
    ((0.05 : ℚ) < 0.7) ∧
    (ask_question envC1 "What is a Roth IRA?" true).1.method = .base_llm ∧
    (ask_question envC1 "What is a Roth IRA?" true).1.sources_used = [] ∧
    (ask_question envC1 "What is a Roth IRA?" true).2.gen_prompts =
      [base_prompt "What is a Roth IRA?"] := by
  have h : ¬ ((0.7 : ℚ) < 0.05) := by norm_num
  refine ⟨?_, by norm_num, ?_, ?_, ?_⟩ <;>
    simp [ask_question, tier1_results, tier2_results, search_qa_data, envC1,
      doc_and_fallback_tiers, search_documents, h]

/-- C2 counterexample: adding the same question twice (differing only in case
and whitespace) does not fail and does not leave the store unchanged — the
store ends with two live entries sharing one normalized question. -/
theorem c2_counterexample :
    c2_s2.qa_pairs.length = 2 ∧ dupCount c2_s2.qa_pairs "What is X" = 2 ∧
    c2_s2 ≠ c2_s1 := by decide

/-- C2 (amended): `add_qa_pair` never fails; it unconditionally appends, so
when the normalized question already occurs among live entries the resulting
store holds at least two live entries with that normalized question. -/
theorem c2_add_appends_duplicate (s : QAData)
    (q a c cat src conf now : String) (h : 0 < dupCount s.qa_pairs q) :
    2 ≤ dupCount ((add_qa_pair s q a c cat src conf now).1.qa_pairs) q := by
  have hq : (add_qa_pair s q a c cat src conf now).1.qa_pairs =
      s.qa_pairs ++
        [⟨some q, some a, some c, some src, some "manual", some cat,
          some conf, some now, none⟩] := rfl
  unfold dupCount at h ⊢
  rw [hq, List.countP_append]
  have h1 : List.countP
      (fun p => p.question.map normQ == some (normQ q))
      [(⟨some q, some a, some c, some src, some "manual", some cat,
         some conf, some now, none⟩ : QAPair)] = 1 := by
    simp [List.countP_cons]
  omega

/-- C2 witness: instantiating the amended theorem at `c2_s1` and its
duplicate question. -/
theorem c2_witness :
    2 ≤ dupCount c2_s2.qa_pairs " what is X  " :=
  c2_add_appends_duplicate c2_s1 " what is X  " "ans2" "ctx" "cat" "Manual"
    "high" "t2" (by decide)

/-- C3: a retrieval collaborator that raises at the curated tier (resp. the
document tier) produces exactly the envelope and call activity that an empty
result list at that tier produces — the router degrades instead of
aborting. -/
theorem c3_retrieval_error_as_empty (f g : String → Nat → SearchOutcome)
    (st : VectorStore) (llm : String → String) (q : String) (uh : Bool) :
    (f q 2 = .err → g q 2 = .ok [] →
      ask_question ⟨some f, st, llm⟩ q uh =
        ask_question ⟨some g, st, llm⟩ q uh) ∧
    (f q 3 = .err → g q 3 = .ok [] →
      ask_question ⟨st, some f, llm⟩ q uh =
        ask_question ⟨st, some g, llm⟩ q uh) := by
  constructor
  · intro hf hg
    simp [ask_question, tier1_results, tier2_results, search_qa_data, hf, hg,
      doc_and_fallback_tiers]
  · intro hf hg
    simp [ask_question, tier1_results, tier2_results, search_documents, hf,
      hg, doc_and_fallback_tiers]

/-- C3 witness: the always-raising collaborator gives the same answers as
the always-empty collaborator, at either tier. -/
theorem c3_witness :
    ask_question ⟨some err_search, none, fixed_llm⟩ "q" true =
      ask_question ⟨some empty_search, none, fixed_llm⟩ "q" true ∧
    ask_question ⟨none, some err_search, fixed_llm⟩ "q" true =
      ask_question ⟨none, some empty_search, fixed_llm⟩ "q" true :=
  ⟨(c3_retrieval_error_as_empty err_search empty_search none fixed_llm "q"
      true).1 rfl rfl,
   (c3_retrieval_error_as_empty err_search empty_search none fixed_llm "q"
      true).2 rfl rfl⟩

/-- C4 counterexample: a persist that fails during the primary write leaves
the primary file truncated (here: empty), not equal to its pre-call content
`"OLD"` — `open(output_file, "w")` truncates before `json.dump` runs. -/
theorem c4_counterexample :
    (save_qa_data "NEW" "20240101_000000" (.failPrimary "") c4_disk).2 =
      false ∧
    (save_qa_data "NEW" "20240101_000000" (.failPrimary "") c4_disk).1.primary
      = some "" ∧
    c4_disk.primary = some "OLD" ∧ ("" : String) ≠ "OLD" := by decide

/-- C4 (amended): when the primary file exists, its content is copied to the
timestamped backup before the primary is overwritten; a failure during the
backup dump aborts with the primary untouched; a failure during the primary
dump leaves the primary holding the partial content, with the pre-call
content preserved in the backup (and likewise on a completed persist). -/
theorem c4_backup_semantics (dat ts part cur : String) (d : Disk)
    (h : d.primary = some cur) :
    (save_qa_data dat ts (.failBackup part) d).1.primary = some cur ∧
    (save_qa_data dat ts (.failBackup part) d).2 = false ∧
    (save_qa_data dat ts (.failPrimary part) d).1.primary = some part ∧
    dictGet (save_qa_data dat ts (.failPrimary part) d).1.backups
      ("qa_backups/qa_backup_" ++ ts ++ ".json") = some cur ∧
    dictGet (save_qa_data dat ts .noFail d).1.backups
      ("qa_backups/qa_backup_" ++ ts ++ ".json") = some cur := by
  obtain ⟨p, bk⟩ := d
  dsimp only at h
  subst h
  simp [save_qa_data, dictGet_dictSet_self]

/-- C4 witness: the backup-ordering theorem at a concrete disk. -/
theorem c4_witness :
    (save_qa_data "NEW" "T" (.failBackup "") c4_disk).1.primary =
      some "OLD" ∧
    (save_qa_data "NEW" "T" (.failBackup "") c4_disk).2 = false ∧
    (save_qa_data "NEW" "T" (.failPrimary "") c4_disk).1.primary = some "" ∧
    dictGet (save_qa_data "NEW" "T" (.failPrimary "") c4_disk).1.backups
      ("qa_backups/qa_backup_" ++ "T" ++ ".json") = some "OLD" ∧
    dictGet (save_qa_data "NEW" "T" .noFail c4_disk).1.backups
      ("qa_backups/qa_backup_" ++ "T" ++ ".json") = some "OLD" :=
  c4_backup_semantics "NEW" "T" "" "OLD" c4_disk rfl

/-- C5 counterexample: in states reachable by add-then-delete and by a
category-moving update, the emptied bucket stays in `categories` under its
key, as an empty list — it is not pruned. -/
theorem c5_counterexample :
    delete_qa_pair c5_s1 "q1" = some (c5_deleted, true) ∧
    dictGet c5_deleted.categories "cata" = some [] ∧
    update_qa_pair c5_s1 "Q1" none none (some "catb") none "t2" =
      some (c5_moved, some c5_upd) ∧
    dictGet c5_moved.categories "cata" = some [] := by decide

/-- C5 (amended): neither `delete_qa_pair` nor `update_qa_pair` ever removes
a category key — delete preserves the key list exactly, and update keeps
every existing key (it can only add the new category's key). -/
theorem c5_no_bucket_pruning :
    (∀ (s : QAData) (q : String) (r : QAData × Bool),
      delete_qa_pair s q = some r →
      r.1.categories.map Prod.fst = s.categories.map Prod.fst) ∧
    (∀ (s : QAData) (q : String) (na nc ncat nconf : Option String)
      (now : String) (r : QAData × Option QAPair) (k : String),
      update_qa_pair s q na nc ncat nconf now = some r →
      (dictGet s.categories k).isSome → (dictGet r.1.categories k).isSome) :=
  ⟨delete_qa_pair_keys,
   fun s q na nc ncat nconf now r k h hk =>
     update_qa_pair_keys s q na nc ncat nconf now r h k hk⟩

/-- C5 witness: the no-pruning theorem at the concrete delete and update of
`c5_s1`. -/
theorem c5_witness :
    c5_deleted.categories.map Prod.fst = c5_s1.categories.map Prod.fst ∧
    (dictGet c5_moved.categories "cata").isSome :=
  ⟨c5_no_bucket_pruning.1 c5_s1 "q1" (c5_deleted, true) (by decide),
   c5_no_bucket_pruning.2 c5_s1 "Q1" none none (some "catb") none "t2"
     (c5_moved, some c5_upd) "cata" (by decide) (by decide)⟩

/-- C6 counterexample: importing an entry whose normalized question
duplicates a live entry appends it (and counts it as imported) instead of
skipping it — the store ends with two live entries sharing one normalized
question. -/
theorem c6_counterexample :
    import_category c2_s1 [c6_bp] none = some (c6_result, 1) ∧
    dupCount c6_result.qa_pairs "What is X" = 2 ∧
    c6_result.qa_pairs.length = 2 := by decide

/-- C6 (amended): a completed `import_category` appends every entry of the
batch (with the category override applied) to `qa_pairs`, in order, with no
duplicate skipped, and reports the full batch length as imported. -/
theorem c6_import_appends_all (s : QAData) (batch : List QAPair)
    (ov : Option String) (r : QAData × Nat)
    (h : import_category s batch ov = some r) :
    r.2 = batch.length ∧
    r.1.qa_pairs = s.qa_pairs ++ batch.map (applyOverride ov) := by
  have hloop := importLoop_qa_pairs ov batch s 0 r h
  simpa using hloop

/-- C6 witness: the import theorem at the concrete duplicate batch. -/
theorem c6_witness :
    (1 : Nat) = [c6_bp].length ∧
    c6_result.qa_pairs = c2_s1.qa_pairs ++ [c6_bp].map (applyOverride none) :=
  c6_import_appends_all c2_s1 [c6_bp] none (c6_result, 1) (by decide)

/-- C7 counterexample: on a store containing an entry without a `question`
key, `validate_qa_pairs` raises `KeyError` (modelled `none`) instead of
returning a report. -/
theorem c7_counterexample : validate_qa_pairs c7_badStore = none := by decide

/-- C7 (amended): `validate_qa_pairs` reads but never mutates the store (it
is a pure function of it), and it returns a structured report whenever every
entry carries a `question` key; an entry missing that key makes it raise. -/
theorem c7_validate_total_when_questions_present (s : QAData)
    (h : ∀ p ∈ s.qa_pairs, p.question.isSome) :
    (validate_qa_pairs s).isSome := by
  unfold validate_qa_pairs
  cases hl : validateLoop s.qa_pairs ⟨[], [], [], [], []⟩ [] with
  | none =>
    have hs := validateLoop_isSome s.qa_pairs ⟨[], [], [], [], []⟩ [] h
    rw [hl] at hs
    simp at hs
  | some acc => simp

/-- C7 witness: validation succeeds on the concrete well-formed store. -/
theorem c7_witness : (validate_qa_pairs c2_s1).isSome :=
  c7_validate_total_when_questions_present c2_s1 (by decide)

/-- C8 counterexample: persisting and loading a store whose `categories`
view disagrees with `qa_pairs` hands the stale view back verbatim — the
regeneration the spec requires (shown by `spec_load_qa_data`) does not
happen. -/
theorem c8_counterexample :
    load_qa_data (persist_value c8_store none) = some c8_store ∧
    c8_store.categories ≠ spec_categoriesFromPairs c8_store.qa_pairs ∧
    spec_load_qa_data (persist_value c8_store none) ≠
      load_qa_data (persist_value c8_store none) := by decide

/-- C8 (amended): `load` after `persist` yields the store exactly as
persisted — identical `entries` in order and the `categories` view verbatim,
with no load-time regeneration even when the view is stale. -/
theorem c8_roundtrip_verbatim (s : QAData) (d : FileValue) :
    load_qa_data (persist_value s d) = some s ∧
    (load_qa_data (persist_value s d)).map QAData.qa_pairs =
      some s.qa_pairs ∧
    (load_qa_data (persist_value s d)).map QAData.categories =
      some s.categories :=
  ⟨rfl, rfl, rfl⟩

/-- C9: for every environment, question and hybrid flag, the envelope's
source list is empty exactly when its method is the base-LLM fallback;
curated and grounded envelopes always carry at least one source. -/
theorem c9_sources_empty_iff_fallback (env : PipelineEnv) (q : String)
    (uh : Bool) :
    (ask_question env q uh).1.sources_used = [] ↔
      (ask_question env q uh).1.method = .base_llm := by
  have h2 : ∀ t, ((doc_and_fallback_tiers env q uh t).1.sources_used = [] ↔
      (doc_and_fallback_tiers env q uh t).1.method = .base_llm) := by
    intro t
    unfold doc_and_fallback_tiers
    cases h : tier2_results env q uh <;> simp [h]
  unfold ask_question
  cases h : tier1_results env q uh with
  | nil => simpa [h] using h2 _
  | cons best tail =>
    by_cases hs : best.similarity_score > 0.7
    · simp [h, hs]
    · simpa [h, hs] using h2 _

/-- C10: with `use_hybrid = False` the router consults neither vector store
and always returns the base-LLM envelope — low confidence, no sources,
produced by a single ungrounded generation call. -/
theorem c10_no_hybrid_skips_corpora (env : PipelineEnv) (q : String) :
    ask_question env q false =
      ({ question := q, sources_used := [],
         answer := env.llm (base_prompt q),
         confidence := .low, method := .base_llm },
       { qa_searched := false, doc_searched := false,
         gen_prompts := [base_prompt q] }) := by
  simp [ask_question, tier1_results, tier2_results, doc_and_fallback_tiers,
    get_base_llm_answer]
